import Mathlib

/-!
Verification development for the Earth Agent browser extension
(multi-stage Earth Engine code-generation pipeline).

The definitions below are a shallow embedding of the TypeScript sources:

* `src/lib/tools/geeDocumentation.ts`  — static documentation set and search
* `src/lib/tools/index.ts`             — `assessProblem` and the bridge tool wrappers
* `src/lib/tools/databaseSearch.ts`    — catalog search `searchEarthEngineDatabase`
* `src/lib/agents/index.ts`            — the minimal sequential pipeline
* `src/lib/agents/codeDebugger.ts`     — the code-debugger agent
* the coordinated agent workflow (`initializeAgentSystem`, steps 4 to 6)
* `scoreAndSortDatasetsByTime` from the timeframe-aware search tool revision

External effects (the chat-completion endpoint, the catalog fetch, the
content-script bridge, and chrome storage) are modelled as oracle
environments: each call site reads a prescribed `Except`/`Option` outcome,
so that one environment value determines one concrete run of the pipeline.
JavaScript strings are modelled as Lean strings, JS falsiness of a string
is emptiness, and optional record fields are `Option`.
-/

/-! ## JavaScript string primitives (ASCII semantics) -/

/-- JS `\s` whitespace class (ASCII part, as used by `trim`, `split(/\s+/)`). -/
def jsIsSpace (c : Char) : Bool :=
  c = ' ' || c = '\t' || c = '\n' || c = '\r' || c = '\x0b' || c = '\x0c'

/-- JS `\w` word-character class: `[A-Za-z0-9_]`. -/
def jsIsWordChar (c : Char) : Bool :=
  ('a' ≤ c && c ≤ 'z') || ('A' ≤ c && c ≤ 'Z') || ('0' ≤ c && c ≤ '9') || c = '_'

/-- ASCII lower-casing, the effect of `String.prototype.toLowerCase` on the
ASCII strings this code handles. -/
def jsToLowerChar (c : Char) : Char :=
  if 'A' ≤ c && c ≤ 'Z' then Char.ofNat (c.toNat + 32) else c

def jsToLowerL (l : List Char) : List Char := l.map jsToLowerChar

def jsToLower (s : String) : String := ⟨jsToLowerL s.data⟩

/-- Substring test, the semantics of `String.prototype.includes`. -/
def jsIncludesL (needle : List Char) : List Char → Bool
  | [] => needle.isEmpty
  | c :: t => needle.isPrefixOf (c :: t) || jsIncludesL needle t

def jsIncludes (hay needle : String) : Bool := jsIncludesL needle.data hay.data

/-- JS `String.prototype.trim`: drop leading and trailing whitespace. -/
def jsTrimL (l : List Char) : List Char :=
  ((l.dropWhile jsIsSpace).reverse.dropWhile jsIsSpace).reverse

def jsTrim (s : String) : String := ⟨jsTrimL s.data⟩

/-- Lexicographic strict order on strings by code point: JS `<` on strings. -/
def jsLtL : List Char → List Char → Bool
  | [], [] => false
  | [], _ :: _ => true
  | _ :: _, [] => false
  | a :: s, b :: t => a < b || (a = b && jsLtL s t)

def jsLt (a b : String) : Bool := jsLtL a.data b.data

/-- JS `<=` on strings (total order, so `a <= b` is `!(b < a)`). -/
def jsLe (a b : String) : Bool := !jsLt b a

/-- Number of non-overlapping occurrences of `pat` in the scanned list:
the value of `s.split(pat).length - 1` in JS for a non-empty `pat`
(fuel-indexed so the definition is structural and kernel-reducible). -/
def countOccAux (pat : List Char) : Nat → List Char → Nat
  | 0, _ => 0
  | _, [] => 0
  | fuel + 1, c :: t =>
    if pat.isPrefixOf (c :: t) then
      1 + countOccAux pat fuel ((c :: t).drop pat.length)
    else
      countOccAux pat fuel t

def countOccL (pat l : List Char) : Nat :=
  if pat.isEmpty then 0 else countOccAux pat l.length l

def countOcc (pat s : String) : Nat := countOccL pat.data s.data

/-- Maximal runs of characters satisfying `p`, i.e. the non-empty tokens of
`s.split(<complement of p>+)`; a possible leading empty token of the JS
split is dropped, which is harmless here because every caller filters the
tokens by a minimum length. -/
def runsByAux (p : Char → Bool) : Nat → List Char → List (List Char)
  | 0, _ => []
  | _, [] => []
  | fuel + 1, c :: t =>
    if p c then
      let run := (c :: t).takeWhile p
      run :: runsByAux p fuel ((c :: t).dropWhile p)
    else
      runsByAux p fuel t

def runsByL (p : Char → Bool) (l : List Char) : List (List Char) :=
  runsByAux p l.length l

/-- Tokens of `s.toLowerCase().split(/\s+/)` (the non-empty ones). -/
def splitWs (s : String) : List String :=
  (runsByL (fun c => !jsIsSpace c) s.data).map (fun l => ⟨l⟩)

/-- Tokens of `s.split(/\W+/)` (the non-empty ones). -/
def splitNonWord (s : String) : List String :=
  (runsByL jsIsWordChar s.data).map (fun l => ⟨l⟩)

/-! ## The stable sort of `Array.prototype.sort`

For a consistent comparator, ECMAScript specifies that `sort` produces the
stable sort of the array; any stable sorting algorithm yields that unique
result, and we use a stable insertion sort.  Comparators returning `NaN`
are treated as returning `+0`, as the ECMAScript `CompareArrayElements`
operation does; for an inconsistent comparator the engine's output is
implementation-defined, which this embedding witnesses through the
comparator itself (see the C7 counterexample). -/

/-- Insert `x` after every element `y` with `cmp y x ≤ 0` (i.e. after
every element the comparator places before or tied with `x`). -/
def insertCmp (cmp : α → α → Int) (x : α) : List α → List α
  | [] => [x]
  | y :: t => if cmp y x ≤ 0 then y :: insertCmp cmp x t else x :: y :: t

/-- Stable sort by a comparator, processing elements in original order. -/
def jsSortBy (cmp : α → α → Int) (l : List α) : List α :=
  l.foldl (fun acc x => insertCmp cmp x acc) []

/-- The numeric comparator `(a, b) => key(b) - key(a)` (descending). -/
def keyCmp (key : α → Int) (a b : α) : Int := key b - key a

/-- Descending-sortedness with respect to a key. -/
def SortedDescKey (key : α → Int) (l : List α) : Prop :=
  List.Pairwise (fun a b => key b ≤ key a) l


/-! ## Documentation tool (`geeDocumentation.ts`)

Scores are kept as exact integers scaled by 10 (the source uses the float
weights 10, 8, 8, 0.5 and 0.3; scaling preserves both the ordering used by
the sort and the positivity used by the `score > 0` filter, which are the
only ways scores are consumed). -/

structure DocumentationSnippet where
  title : String
  content : String
  url : String
  category : String
  apiClass : Option String := none
  apiFunction : Option String := none
  examples : Option (List String) := none
deriving DecidableEq

/-- The static documentation set `documentationData`. -/
def documentationData : List DocumentationSnippet := [
  { title := "ee.Image - Constructor",
    content := "Creates an earth engine image. The Image constructor accepts a variety of arguments: constant value, EE object, asset ID, array, array of arrays.",
    url := "https://developers.google.com/earth-engine/apidocs/ee-image",
    category := "Core",
    apiClass := some "ee.Image",
    examples := some [
      "// Create a constant image.",
      "var image = ee.Image(1);",
      "// Create an image from an asset ID.",
      "var image = ee.Image(\x27LANDSAT/LC08/C02/T1_L2/LC08_044034_20210508\x27);"] },
  { title := "ee.ImageCollection - Constructor",
    content := "Creates an earth engine image collection. The constructor accepts a variety of arguments: filter, list, asset ID, etc.",
    url := "https://developers.google.com/earth-engine/apidocs/ee-imagecollection",
    category := "Core",
    apiClass := some "ee.ImageCollection",
    examples := some [
      "// Create an ImageCollection from an asset ID.",
      "var collection = ee.ImageCollection(\x27LANDSAT/LC08/C02/T1_L2\x27);"] },
  { title := "ee.ImageCollection.filterDate",
    content := "Filter an image collection by date range. Accepts start and end dates as arguments.",
    url := "https://developers.google.com/earth-engine/apidocs/ee-imagecollection-filterdate",
    category := "Filtering",
    apiClass := some "ee.ImageCollection",
    apiFunction := some "filterDate",
    examples := some [
      "// Filter a collection by date.",
      "var filtered = collection.filterDate(\x272021-01-01\x27, \x272021-12-31\x27);"] },
  { title := "ee.Image.clip",
    content := "Clip an image to a geometry. Accepts a feature, feature collection, or geometry as an argument.",
    url := "https://developers.google.com/earth-engine/apidocs/ee-image-clip",
    category := "Image Processing",
    apiClass := some "ee.Image",
    apiFunction := some "clip",
    examples := some [
      "// Clip an image to a geometry.",
      "var clipped = image.clip(geometry);"] },
  { title := "ee.Image.normalizedDifference",
    content := "Compute the normalized difference between two bands. This is often used for indices like NDVI.",
    url := "https://developers.google.com/earth-engine/apidocs/ee-image-normalizeddifference",
    category := "Image Processing",
    apiClass := some "ee.Image",
    apiFunction := some "normalizedDifference",
    examples := some [
      "// Compute NDVI from NIR and red bands.",
      "var ndvi = image.normalizedDifference([\x27NIR\x27, \x27RED\x27]);"] },
  { title := "ee.Reducer.mean",
    content := "Create a reducer that computes the mean of values. This is commonly used with reduceRegion or reduceNeighborhood.",
    url := "https://developers.google.com/earth-engine/apidocs/ee-reducer-mean",
    category := "Reducers",
    apiClass := some "ee.Reducer",
    apiFunction := some "mean",
    examples := some [
      "// Compute the mean value in a region.",
      "var mean = image.reduceRegion(\x7b",
      "  reducer: ee.Reducer.mean(),",
      "  geometry: region,",
      "  scale: 30",
      "\x7d);"] },
  { title := "ee.Feature - Constructor",
    content := "Creates a feature with geometry and properties. Accepts various inputs, including a geometry and a property dictionary.",
    url := "https://developers.google.com/earth-engine/apidocs/ee-feature",
    category := "Vectors",
    apiClass := some "ee.Feature",
    examples := some [
      "// Create a feature with a point geometry and properties.",
      "var feature = ee.Feature(",
      "  ee.Geometry.Point([-122.4, 37.8]),",
      "  \x7bname: \x27San Francisco\x27, population: 881000\x7d",
      ");"] },
  { title := "ee.FeatureCollection - Constructor",
    content := "Creates a feature collection. Accepts a list of features, a geometry, a computed object, or an asset ID.",
    url := "https://developers.google.com/earth-engine/apidocs/ee-featurecollection",
    category := "Vectors",
    apiClass := some "ee.FeatureCollection",
    examples := some [
      "// Create a FeatureCollection from an asset ID.",
      "var fc = ee.FeatureCollection(\x27TIGER/2018/Counties\x27);",
      "// Filter the collection.",
      "var filtered = fc.filter(ee.Filter.eq(\x27STATEFP\x27, \x2706\x27));"] },
  { title := "ee.Terrain.slope",
    content := "Compute the slope of a DEM image. Returns an image with the slope in degrees.",
    url := "https://developers.google.com/earth-engine/apidocs/ee-terrain-slope",
    category := "Terrain",
    apiClass := some "ee.Terrain",
    apiFunction := some "slope",
    examples := some [
      "// Load SRTM digital elevation model data.",
      "var dem = ee.Image(\x27USGS/SRTMGL1_003\x27);",
      "// Calculate slope.",
      "var slope = ee.Terrain.slope(dem);",
      "// Display the slope.",
      "Map.addLayer(slope, \x7bmin: 0, max: 60\x7d, \x27slope\x27);"] },
  { title := "ui.Map.addLayer",
    content := "Adds a layer to the map. Accepts an image, feature collection, or geometry, along with visualization parameters and a name.",
    url := "https://developers.google.com/earth-engine/apidocs/map-addlayer",
    category := "Visualization",
    apiClass := some "ui.Map",
    apiFunction := some "addLayer",
    examples := some [
      "// Add an image to the map.",
      "Map.addLayer(image, \x7bbands: [\x27B4\x27, \x27B3\x27, \x27B2\x27], min: 0, max: 3000\x7d, \x27Landsat\x27);"] },
  { title := "ui.Chart.image.series",
    content := "Creates a chart from an image collection. Useful for time series analysis of image collections.",
    url := "https://developers.google.com/earth-engine/apidocs/ui-chart-image-series",
    category := "Visualization",
    apiClass := some "ui.Chart.image",
    apiFunction := some "series",
    examples := some [
      "// Create a time series chart of NDVI.",
      "var chart = ui.Chart.image.series(\x7b",
      "  imageCollection: ndviCollection,",
      "  region: geometry,",
      "  reducer: ee.Reducer.mean(),",
      "  scale: 30",
      "\x7d);"] }]

/-- The function `calculateRelevance`, with all weights scaled by 10. -/
def calculateRelevance10 (query : String) (doc : DocumentationSnippet) : Int :=
  let normalizedQuery := jsToLower query
  let queryTerms := (splitNonWord normalizedQuery).filter (fun t => t.length > 2)
  let titleScore : Int :=
    if jsIncludes (jsToLower doc.title) normalizedQuery then 100 else 0
  let classScore : Int :=
    match doc.apiClass with
    | some ac => if jsIncludes normalizedQuery (jsToLower ac) then 80 else 0
    | none => 0
  let functionScore : Int :=
    match doc.apiFunction with
    | some af => if jsIncludes normalizedQuery (jsToLower af) then 80 else 0
    | none => 0
  let contentLower := jsToLower doc.content
  let contentScore : Int :=
    queryTerms.foldl (fun acc term => acc + 5 * (countOcc term contentLower : Int)) 0
  let exampleScore : Int :=
    match doc.examples with
    | some exs =>
      let examplesText := jsToLower (String.intercalate " " exs)
      queryTerms.foldl
        (fun acc term => acc + (if jsIncludes examplesText term then 3 else 0)) 0
    | none => 0
  titleScore + classScore + functionScore + contentScore + exampleScore

/-- The function `searchDocumentation`: score, sort descending, keep positive scores,
return the first `limit` snippets. -/
def searchDocumentation (query : String) (limit : Nat := 5) :
    List DocumentationSnippet :=
  let scoredDocs := documentationData.map
    (fun doc => (doc, calculateRelevance10 query doc))
  ((((jsSortBy (keyCmp (fun p : DocumentationSnippet × Int => p.2)) scoredDocs).filter
      (fun p => decide (0 < p.2))).take limit).map (fun p => p.1))

/-! ## Feasibility assessment (`assessProblem` in `tools/index.ts`) -/

structure ProblemAssessmentResult where
  feasible : Bool
  explanation : String
  suggestedApproach : Option String := none
  relevantAPIs : Option (List String) := none
deriving DecidableEq

def positiveKeywords : List String := [
  "map", "satellite", "image", "elevation", "terrain", "landsat", "sentinel",
  "modis", "ndvi", "vegetation", "forest", "water", "land cover", "temperature",
  "climate", "flood", "drought", "fire", "urban", "agriculture", "time series",
  "change", "detection", "glacier", "snow", "rainfall", "precipitation",
  "landslide", "erosion", "deforestation", "reforestation", "cropland"]

def negativeKeywords : List String := [
  "indoor", "indoor map", "street view", "navigation", "driving directions",
  "traffic", "restaurant", "hotel", "booking", "flight", "weather forecast",
  "stock", "market", "exchange rate", "currency", "news", "social media"]

def keywordToAPI : List (String × List String) := [
  ("image", ["ee.Image", "ee.ImageCollection"]),
  ("satellite", ["ee.ImageCollection", "ee.Image.visualize"]),
  ("landsat", ["ee.ImageCollection(\"LANDSAT/LC08/C02/T1_L2\")", "ee.ImageCollection(\"LANDSAT/LC09/C02/T1_L2\")"]),
  ("sentinel", ["ee.ImageCollection(\"COPERNICUS/S2_SR\")", "ee.ImageCollection(\"COPERNICUS/S2\")"]),
  ("modis", ["ee.ImageCollection(\"MODIS/006/MOD13Q1\")", "ee.ImageCollection(\"MODIS/006/MCD12Q1\")"]),
  ("ndvi", ["image.normalizedDifference()", "image.expression()"]),
  ("vegetation", ["ee.ImageCollection(\"MODIS/006/MOD13Q1\")", "image.normalizedDifference()"]),
  ("forest", ["ee.ImageCollection(\"UMD/hansen/global_forest_change_2021_v1_9\")", "ee.ImageCollection(\"JAXA/ALOS/PALSAR/YEARLY/FNF\")"]),
  ("water", ["ee.Image(\"JRC/GSW1_3/GlobalSurfaceWater\")", "ee.Image.normalizedDifference()"]),
  ("land cover", ["ee.ImageCollection(\"MODIS/006/MCD12Q1\")", "ee.ImageCollection(\"ESA/WorldCover/v100\")"]),
  ("temperature", ["ee.ImageCollection(\"MODIS/006/MOD11A1\")", "ee.ImageCollection(\"NOAA/CFSV2/FOR6H\")"]),
  ("elevation", ["ee.Image(\"USGS/SRTMGL1_003\")", "ee.Terrain.slope"]),
  ("terrain", ["ee.Terrain", "ee.Image(\"USGS/SRTMGL1_003\")"]),
  ("time series", ["ee.ImageCollection.filterDate()", "ui.Chart.image.series"])]

/-- First-occurrence de-duplication: `[...new Set(xs)]`. -/
def dedupAux (seen : List String) : List String → List String
  | [] => []
  | x :: t => if seen.contains x then dedupAux seen t else x :: dedupAux (x :: seen) t

def dedupStrings (l : List String) : List String := dedupAux [] l

/-- The test `positiveKeywords.some(k => lowercasedQuery.includes(k))`. -/
def hasPositiveKeyword (query : String) : Bool :=
  positiveKeywords.any (fun k => jsIncludes (jsToLower query) k)

/-- The test `negativeKeywords.some(k => lowercasedQuery.includes(k))`. -/
def hasNegativeKeyword (query : String) : Bool :=
  negativeKeywords.any (fun k => jsIncludes (jsToLower query) k)

def noQueryExplanation : String :=
  "No query was provided. Please enter a valid request to analyze."

def feasibleExplanation : String :=
  "This task can be accomplished with Google Earth Engine."

def infeasibleExplanation : String :=
  "This task is not suitable for Google Earth Engine. Earth Engine is designed for geospatial analysis, not for this type of request."

def hedgedExplanation : String :=
  "This task might be accomplishable with Google Earth Engine, but I\x27m not completely sure based on your request."

/-- The tool `EarthEngineTools.assessProblem`. -/
def assessProblem (query : String) : ProblemAssessmentResult :=
  if query.isEmpty then
    { feasible := false, explanation := noQueryExplanation }
  else
    let docs := searchDocumentation query 5
    let docAPIs := docs.foldl
      (fun acc doc =>
        match doc.apiClass with
        | some ac =>
          acc ++ [match doc.apiFunction with
                  | some af => ac ++ "." ++ af
                  | none => ac]
        | none => acc) []
    let lowercasedQuery := jsToLower query
    let kwAPIs := keywordToAPI.foldl
      (fun acc p => if jsIncludes lowercasedQuery p.1 then acc ++ p.2 else acc) []
    let uniqueAPIs := dedupStrings (docAPIs ++ kwAPIs)
    let hasSufficientDocumentation := docs.length ≥ 2
    if (hasPositiveKeyword query || hasSufficientDocumentation) &&
        !hasNegativeKeyword query then
      { feasible := true, explanation := feasibleExplanation,
        suggestedApproach :=
          some "Use Earth Engine to analyze satellite imagery and geospatial data.",
        relevantAPIs := if uniqueAPIs.isEmpty then none else some uniqueAPIs }
    else if hasNegativeKeyword query then
      { feasible := false, explanation := infeasibleExplanation }
    else
      { feasible := true, explanation := hedgedExplanation,
        suggestedApproach :=
          some "Let\x27s try using Earth Engine to analyze geospatial data related to your query.",
        relevantAPIs := if uniqueAPIs.isEmpty then none else some uniqueAPIs }

/-! ## Catalog search (`databaseSearch.ts`) -/

structure DatasetEntry where
  id : String
  name : Option String := none
  title : Option String := none
  description : Option String := none
  tags : Option (List String) := none
  provider : Option String := none
  documentation_url : Option String := none
  type_ : Option String := none
  asset_url : Option String := none
  start_date : Option String := none
  end_date : Option String := none
  startyear : Option String := none
  endyear : Option String := none
  thumbnail_url : Option String := none
deriving DecidableEq

/-- JS `a || b` for an optional string `a` (empty strings are falsy). -/
def jsOrStr (a : Option String) (b : String) : String :=
  match a with
  | some s => if s.isEmpty then b else s
  | none => b

def sampleSRTM : DatasetEntry :=
  { id := "USGS/SRTMGL1_003",
    title := some "SRTM Global 1 arc second elevation",
    description := some "Shuttle Radar Topography Mission (SRTM) digital elevation data is a worldwide elevation dataset.",
    tags := some ["elevation", "topography", "dem", "srtm"],
    provider := some "USGS",
    documentation_url := some "https://developers.google.com/earth-engine/datasets/catalog/USGS_SRTMGL1_003",
    type_ := some "image" }

def sampleMOD13Q1 : DatasetEntry :=
  { id := "MODIS/006/MOD13Q1",
    title := some "MODIS Terra Vegetation Indices 16-Day Global 250m",
    description := some "Vegetation indices designed to provide consistent spatial and temporal comparisons of vegetation conditions.",
    tags := some ["modis", "vegetation", "ndvi", "evi"],
    provider := some "NASA",
    documentation_url := some "https://developers.google.com/earth-engine/datasets/catalog/MODIS_006_MOD13Q1",
    type_ := some "image_collection" }

def sampleS2 : DatasetEntry :=
  { id := "COPERNICUS/S2",
    title := some "Sentinel-2 MSI: MultiSpectral Instrument, Level-1C",
    description := some "Sentinel-2 is a wide-swath, high-resolution, multi-spectral imaging mission supporting Copernicus Land Monitoring studies.",
    tags := some ["sentinel", "satellite", "esa", "copernicus"],
    provider := some "ESA",
    documentation_url := some "https://developers.google.com/earth-engine/datasets/catalog/COPERNICUS_S2",
    type_ := some "image_collection" }

def sampleLandsat8 : DatasetEntry :=
  { id := "LANDSAT/LC08/C01/T1_SR",
    title := some "USGS Landsat 8 Surface Reflectance Tier 1",
    description := some "Landsat 8 SR is atmospherically corrected surface reflectance from the Landsat 8 OLI/TIRS sensors.",
    tags := some ["landsat", "usgs", "sr", "surface reflectance"],
    provider := some "USGS",
    documentation_url := some "https://developers.google.com/earth-engine/datasets/catalog/LANDSAT_LC08_C01_T1_SR",
    type_ := some "image_collection" }

def sampleGPM : DatasetEntry :=
  { id := "NASA/GPM_L3/IMERG_V06",
    title := some "GPM: Global Precipitation Measurement (GPM) v6",
    description := some "Global Precipitation Measurement (GPM) IMERG precipitation data.",
    tags := some ["precipitation", "rainfall", "gpm", "nasa"],
    provider := some "NASA",
    documentation_url := some "https://developers.google.com/earth-engine/datasets/catalog/NASA_GPM_L3_IMERG_V06",
    type_ := some "image_collection" }

/-- The fallback `getSampleCatalog`, the built-in fallback catalog. -/
def getSampleCatalog : List DatasetEntry :=
  [sampleSRTM, sampleMOD13Q1, sampleS2, sampleLandsat8, sampleGPM]

/-- The function `fetchCatalog`: the cached remote catalog on success, the sample
catalog as fallback when the fetch fails. -/
def fetchCatalog (fetchResult : Except String (List DatasetEntry)) :
    List DatasetEntry :=
  match fetchResult with
  | .ok catalog => catalog
  | .error _ => getSampleCatalog

/-- The combined searchable text of one catalog entry:
`id + ' ' + (title || name || '') + ' ' + (description || '') + ' ' + (tags?.join(' ') || '')`,
lower-cased. -/
def datasetText (d : DatasetEntry) : String :=
  jsToLower (d.id ++ " " ++ jsOrStr d.title (jsOrStr d.name "") ++ " " ++
    jsOrStr d.description "" ++ " " ++
    jsOrStr (d.tags.map (String.intercalate " ")) "")

/-- The query keywords: whitespace tokens of the lower-cased query that are
longer than 2 characters. -/
def searchKeywords (query : String) : List String :=
  (splitWs (jsToLower query)).filter (fun w => w.length > 2)

/-- The function `searchEarthEngineDatabase`: filter the catalog by keyword containment,
sort by number of keyword occurrences (descending, stable), return at most
20 entries. -/
def searchEarthEngineDatabase (fetchResult : Except String (List DatasetEntry))
    (query : String) : List DatasetEntry :=
  let fullCatalog := fetchCatalog fetchResult
  let keywords := searchKeywords query
  let matchingDatasets := fullCatalog.filter
    (fun d => keywords.any (fun kw => jsIncludes (datasetText d) kw))
  let scored := matchingDatasets.map
    (fun d => (d, keywords.foldl
      (fun acc kw => acc + (countOcc kw (datasetText d) : Int)) 0))
  (((jsSortBy (keyCmp (fun p : DatasetEntry × Int => p.2)) scored).map
      (fun p => p.1)).take 20)

/-! ## Fenced-code-block extraction (`extractCodeBlock` and the shared
regex of the code generator and debugger agents)

The regex is `/\x60\x60\x60(?:javascript|js)?\s*([\s\S]*?)\x60\x60\x60/`
(with backtick fences): find the leftmost opening fence that has a later
closing fence, optionally skip a `javascript` or `js` tag, skip following
whitespace, then capture lazily up to the first closing fence.  The
backtracking of the JS engine never changes this outcome because the tag
and the whitespace run contain no backtick. -/

def btChar : Char := Char.ofNat 96

/-- Does the list start with three backticks? -/
def isBt3 (l : List Char) : Bool := l.take 3 == [btChar, btChar, btChar]

/-- Split at the first occurrence of three consecutive backticks, returning
the part before the fence and the part after it. -/
def fenceSplitL : List Char → Option (List Char × List Char)
  | [] => none
  | c :: t =>
    if isBt3 (c :: t) then some ([], t.drop 2)
    else
      match fenceSplitL t with
      | some (pre, rest) => some (c :: pre, rest)
      | none => none

/-- The optional `(?:javascript|js)?` language tag after the opening
fence, with the regex alternation order. -/
def stripLangTag (l : List Char) : List Char :=
  if "javascript".data.isPrefixOf l then l.drop 10
  else if "js".data.isPrefixOf l then l.drop 2
  else l

/-- The capture group of the fence regex, when the regex matches. -/
def matchCodeFence (text : String) : Option String :=
  match fenceSplitL text.data with
  | none => none
  | some (_, rest) =>
    let rest2 := (stripLangTag rest).dropWhile jsIsSpace
    match fenceSplitL rest2 with
    | none => none
    | some (inner, _) => some ⟨inner⟩

/-- The function `extractCodeBlock`: the trimmed capture group when a fenced block is
found, otherwise the entire reply text. -/
def extractCodeBlock (text : String) : String :=
  match matchCodeFence text with
  | some inner => jsTrim inner
  | none => text

/-! ## Search-term extraction (`extractSearchTerms` in `agents/index.ts`) -/

def earthObsKeywords : List String := [
  "elevation", "land cover", "precipitation", "temperature", "vegetation",
  "forest", "water", "snow", "ice", "urban", "population"]

/-- Length of a brand name (`Landsat|MODIS|Sentinel`) if one starts here. -/
def brandLen (l : List Char) : Option Nat :=
  if "Landsat".data.isPrefixOf l then some 7
  else if "MODIS".data.isPrefixOf l then some 5
  else if "Sentinel".data.isPrefixOf l then some 8
  else none

/-- The character class `[a-zA-Z0-9\s-]` extending a brand match. -/
def brandExtChar (c : Char) : Bool := c.isAlphanum || jsIsSpace c || c = '-'

/-- Successive matches of `/\b(Landsat|MODIS|Sentinel)[a-zA-Z0-9\s-]*/g`:
scan left to right, requiring a word boundary before the brand, and resume
after each match (fuel-indexed structural recursion). -/
def brandMatchesAux : Nat → Bool → List Char → List (List Char)
  | 0, _, _ => []
  | _, _, [] => []
  | fuel + 1, prevWord, c :: t =>
    match (if prevWord then none else brandLen (c :: t)) with
    | some n =>
      let consumed := (c :: t).take n
      let rest := (c :: t).drop n
      let ext := rest.takeWhile brandExtChar
      let m := consumed ++ ext
      m :: brandMatchesAux fuel
        (match m.getLast? with
         | some lc => jsIsWordChar lc
         | none => false)
        (rest.drop ext.length)
    | none => brandMatchesAux fuel (jsIsWordChar c) t

def brandMatches (l : List Char) : List (List Char) :=
  brandMatchesAux l.length false l

/-- JS `text.split('\n')` (JS semantics: empty segments are kept). -/
def splitOnNl : List Char → List (List Char)
  | [] => [[]]
  | c :: t =>
    if c = '\n' then [] :: splitOnNl t
    else
      match splitOnNl t with
      | h :: r => (c :: h) :: r
      | [] => [[c]]

/-- The function `extractSearchTerms`: per line, collect brand-name matches and known
earth-observation keywords; fall back to the default terms; de-duplicate
preserving first occurrence. -/
def extractSearchTerms (text : String) : List String :=
  let lines := (splitOnNl text.data).map (fun l => (⟨l⟩ : String))
  let terms := lines.foldl
    (fun acc line =>
      let acc :=
        if jsIncludes line "Landsat" || jsIncludes line "MODIS" ||
            jsIncludes line "Sentinel" then
          acc ++ (brandMatches line.data).map (fun m => (⟨m⟩ : String))
        else acc
      earthObsKeywords.foldl
        (fun acc keyword =>
          if jsIncludes (jsToLower line) keyword then acc ++ [keyword] else acc)
        acc)
    []
  let terms :=
    if terms.isEmpty then ["Landsat", "MODIS", "elevation", "land cover"]
    else terms
  dedupStrings terms

/-- The function `removeDuplicateDatasets`: keep the first entry for each id. -/
def removeDupAux (seen : List String) : List DatasetEntry → List DatasetEntry
  | [] => []
  | d :: t =>
    if seen.contains d.id then removeDupAux seen t
    else d :: removeDupAux (d.id :: seen) t

def removeDuplicateDatasets (datasets : List DatasetEntry) : List DatasetEntry :=
  removeDupAux [] datasets

/-- The function `formatDatasetsForPrompt` (feeds only the prompt text of the code
generation call; a missing `name` renders as the string `undefined`). -/
def formatDatasetsForPrompt (datasets : List DatasetEntry) : String :=
  String.intercalate "\n" (datasets.map (fun d =>
    "- " ++ (match d.name with | some s => s | none => "undefined") ++
    " (" ++ d.id ++ "): " ++ jsOrStr d.description "No description available"))

/-! ## Shared pipeline state (`agents/types.ts`) -/

structure AgentState where
  input : String
  taskPlan : Option String := none
  selectedDatabases : Option (List DatasetEntry) := none
  databaseSelectionText : Option String := none
  generatedCode : Option String := none
  errors : Option String := none
  debugLog : Option (List String) := none
  inspectionResults : Option String := none
  response : Option String := none
deriving DecidableEq

structure AgentResponse where
  response : String
  code : Option String := none
  debugLog : Option (List String) := none
deriving DecidableEq

/-- JS truthiness of an optional string field (absent or empty is falsy). -/
def truthyStr (o : Option String) : Bool :=
  match o with
  | some s => !s.isEmpty
  | none => false

/-! ## The minimal sequential pipeline (`agents/index.ts`)

The chat-completion endpoint is an oracle: the pipeline makes at most one
call per stage (plan, dataset selection, code generation, summary), so the
environment carries one prescribed `Except` outcome per call site, plus
the outcome of the catalog fetch used by `databaseSearch`.  The prompt
strings built from the state feed only the oracle call and are therefore
not spelled out.  The trace records the observable stage activity (the
`selected` entry mirrors the `console.log` of the selected-dataset count
at the end of step 2). -/

structure MEnv where
  fetchResult : Except String (List DatasetEntry)
  planReply : Except String String
  selectReply : Except String String
  codeReply : Except String String
  summaryReply : Except String String

inductive MEvent where
  | assess
  | chatPlan
  | chatSelect
  | search (term : String)
  | selected (n : Nat)
  | chatCode
  | chatSummary
deriving DecidableEq

/-- The handler `errorFallback` (the outer catch handler; unreachable because every
stage converts its own failures). -/
def errorFallback (e : String) : AgentResponse :=
  { response := "I encountered an unexpected error while processing your request: " ++
      e ++ ". Please try again with a different query.",
    code := some "// Error processing request",
    debugLog := some [e] }

def invalidQueryText : String :=
  "I couldn\x27t process your request. Please provide a valid query."

def notFeasiblePrefix : String :=
  "I\x27m sorry, but I don\x27t think Google Earth Engine is the right tool for this request. "

def planningErrorResponse (e : String) : AgentResponse :=
  { response := "I encountered an error while planning how to approach your request: " ++
      e ++ ". Please try again with a more specific query.",
    code := some "// Error in planning stage" }

def selectionErrorResponse (e : String) : AgentResponse :=
  { response := "I encountered an error while selecting appropriate datasets: " ++
      e ++ ". Please try again with a more specific request.",
    code := some "// Error in dataset selection stage" }

def codegenErrorResponse (e : String) : AgentResponse :=
  { response := "I encountered an error while generating Earth Engine code: " ++
      e ++ ". Please try again with a more specific request.",
    code := some "// Error in code generation" }

def summaryFallbackText : String :=
  "I\x27ve generated Earth Engine code based on your request. You can run this code in the Earth Engine Code Editor to accomplish your task."

/-- The function `processingFunction`: the four-stage pipeline with one try/catch per
stage and an outer try/catch.  A JS `throw` inside a stage body lands in
that stage's catch branch; since every tool wrapper and every stage
converts its failures, no exception reaches the outer handler and the
result is always `.ok`. -/
def processingFunctionE (env : MEnv) (input : String) :
    Except String AgentResponse × List MEvent :=
  if input.isEmpty then
    (.ok { response := invalidQueryText,
           code := some "// No code was generated (empty input)" }, [])
  else
    let state : AgentState := { input := input }
    -- STEP 1: feasibility assessment, then the planning chat call
    let assessmentResult := assessProblem input
    let tr := [MEvent.assess]
    if !assessmentResult.feasible then
      (.ok { response := notFeasiblePrefix ++ assessmentResult.explanation,
             code := some "// Task not feasible with Earth Engine" }, tr)
    else
      let tr := tr ++ [MEvent.chatPlan]
      match env.planReply with
      | .error e => (.ok (planningErrorResponse e), tr)
      | .ok taskPlan =>
        let state := { state with taskPlan := some taskPlan }
        -- STEP 2: dataset selection
        if !truthyStr state.taskPlan then
          -- `throw new Error('No task plan available')` → stage catch
          (.ok (selectionErrorResponse "No task plan available"), tr)
        else
          let tr := tr ++ [MEvent.chatSelect]
          match env.selectReply with
          | .error e => (.ok (selectionErrorResponse e), tr)
          | .ok datasetSelectionText =>
            let searchTerms := extractSearchTerms datasetSelectionText
            let tr := tr ++ searchTerms.map MEvent.search
            let allDatasets := (searchTerms.map
              (fun t => searchEarthEngineDatabase env.fetchResult t)).flatten
            let uniqueDatasets := (removeDuplicateDatasets allDatasets).take 5
            let state := { state with
              selectedDatabases := some uniqueDatasets,
              databaseSelectionText := some datasetSelectionText }
            let tr := tr ++ [MEvent.selected uniqueDatasets.length]
            -- STEP 3: code generation
            if !truthyStr state.taskPlan || !state.selectedDatabases.isSome then
              -- `throw new Error('Missing task plan or datasets')` → stage catch
              (.ok (codegenErrorResponse "Missing task plan or datasets"), tr)
            else
              let _datasetsFormatted :=
                formatDatasetsForPrompt (state.selectedDatabases.getD [])
              let tr := tr ++ [MEvent.chatCode]
              match env.codeReply with
              | .error e => (.ok (codegenErrorResponse e), tr)
              | .ok codeResponse =>
                let state := { state with
                  generatedCode := some (extractCodeBlock codeResponse) }
                -- STEP 4: summary
                if !truthyStr state.generatedCode then
                  -- `throw new Error('No code was generated')` → stage catch
                  (.ok { response := summaryFallbackText,
                         code := some (jsOrStr state.generatedCode "// No code was generated"),
                         debugLog := some ["Error in response generation: No code was generated"] },
                   tr)
                else
                  let tr := tr ++ [MEvent.chatSummary]
                  match env.summaryReply with
                  | .error e =>
                    (.ok { response := summaryFallbackText,
                           code := some (jsOrStr state.generatedCode "// No code was generated"),
                           debugLog := some ["Error in response generation: " ++ e] },
                     tr)
                  | .ok response =>
                    (.ok { response := response,
                           code := state.generatedCode,
                           debugLog := some ["Task completed successfully"] },
                     tr)

def invalidInputResponse : AgentResponse :=
  { response := invalidQueryText,
    code := some "// No code was generated (invalid input)",
    debugLog := some ["Invalid input type provided"] }

/-- The wrapper returned by `initializeAgentSystem`: reject a falsy input
with the fixed invalid-input response, otherwise run the pipeline. -/
def submit (env : MEnv) (userInput : String) :
    Except String AgentResponse × List MEvent :=
  if userInput.isEmpty then (.ok invalidInputResponse, [])
  else processingFunctionE env userInput

/-! ## Code-debugger agent (`agents/codeDebugger.ts`)

`getApiKey` is modelled as the `Option String` it resolves to (it returns
`null` both when the key is absent and when storage fails), and the LLM
invocation as a prescribed `Except` outcome. -/

def apiKeyMissingText : String :=
  "OpenAI API key is not configured. Please set your API key in the settings."

def debuggerCatchText : String :=
  "I encountered an error while debugging the code. Please try again with a simplified request."

def codeDebuggerAgent (apiKey : Option String)
    (debuggerReply : Except String String) (state : AgentState) : AgentState :=
  -- if we don't have code or errors, return the state unchanged
  if !(truthyStr state.generatedCode && truthyStr state.errors) then state
  else
    match apiKey with
    | none => { state with response := some apiKeyMissingText }
    | some _ =>
      match debuggerReply with
      | .ok debuggerResponse =>
        let debuggedCode :=
          match matchCodeFence debuggerResponse with
          | some g => jsTrim g
          | none => state.generatedCode.getD ""  -- default to the original code
        { state with
          generatedCode := some debuggedCode,
          debugLog := some ((state.debugLog.getD []) ++
            ["Fixed code issues: " ++ debuggerResponse]),
          errors := none }
      | .error e =>
        { state with
          debugLog := some ((state.debugLog.getD []) ++ ["Error in debugging: " ++ e]),
          response :=
            if truthyStr state.response then state.response
            else some debuggerCatchText }

/-! ## Bridge tool wrappers (`tools/index.ts`) and the execution/debug
block of the coordinated workflow (`initializeAgentSystem`, steps 4 to 6)

Each content-script operation resolves to a raw response (possibly
`undefined`, modelled as `none`) or rejects; the wrappers catch every
rejection, so none of them ever throws into the workflow. -/

structure Diag where
  level : String
  message : String
  timestamp : Option String := none
deriving DecidableEq

structure RawRunResponse where
  success : Bool
  message : Option String := none
  executionTime : Option Int := none

structure RunCodeResponse where
  success : Bool
  message : String
  executionTime : Option Int := none
deriving DecidableEq

structure RawConsoleResponse where
  success : Bool
  errors : Option (List Diag) := none

structure ConsoleCheckResult where
  success : Bool
  errors : List Diag
deriving DecidableEq

structure RawInspectResponse where
  success : Bool
  data : Option String := none
  error : Option String := none

structure InspectionResult where
  success : Bool
  data : Option String
  error : Option String
deriving DecidableEq

structure WEnv where
  apiKey : Option String
  runCodeResult : Nat → Except String (Option RawRunResponse)
  checkConsoleResult : Except String (Option RawConsoleResponse)
  inspectMapResult : Except String (Option RawInspectResponse)
  debuggerReply : Except String String

/-- The tool `EarthEngineTools.runCode` (the code argument feeds only the bridge
message; the outcome is prescribed per invocation index). -/
def toolsRunCode (env : WEnv) (callIdx : Nat) (_code : String) : RunCodeResponse :=
  match env.runCodeResult callIdx with
  | .error e => { success := false, message := e }
  | .ok none => { success := false, message := "Code execution completed" }
  | .ok (some r) =>
    { success := r.success,
      message := jsOrStr r.message "Code execution completed",
      executionTime := r.executionTime }

/-- The tool `EarthEngineTools.checkConsole`: a rejected bridge call is converted
into a failed result carrying one error-level diagnostic. -/
def toolsCheckConsole (env : WEnv) : ConsoleCheckResult :=
  match env.checkConsoleResult with
  | .error e => { success := false, errors := [{ level := "error", message := e }] }
  | .ok none => { success := false, errors := [] }
  | .ok (some r) => { success := r.success, errors := r.errors.getD [] }

/-- The tool `EarthEngineTools.inspectMap`. -/
def toolsInspectMap (env : WEnv) : InspectionResult :=
  match env.inspectMapResult with
  | .error e => { success := false, data := none, error := some e }
  | .ok none => { success := false, data := none, error := none }
  | .ok (some r) => { success := r.success, data := r.data, error := r.error }

inductive WEvent where
  | runCode (code : String)
  | checkConsole
  | debuggerCall
  | inspect
deriving DecidableEq

/-- The text `state.errors` as assembled from the console diagnostics:
`errors.map(e => level + ': ' + message).join('\n')`. -/
def consoleErrorsText (env : WEnv) : String :=
  String.intercalate "\n"
    ((toolsCheckConsole env).errors.map (fun e => e.level ++ ": " ++ e.message))

/-- The state produced by the single debugger invocation of step 5. -/
def debuggedState (env : WEnv) (state : AgentState) : AgentState :=
  codeDebuggerAgent env.apiKey env.debuggerReply
    { state with errors := some (consoleErrorsText env) }

/-- Step 6: inspect the map and record the result when data is present. -/
def inspectAndFinish (env : WEnv) (state : AgentState) (tr : List WEvent) :
    AgentState × List WEvent :=
  let inspectionResult := toolsInspectMap env
  (if truthyStr inspectionResult.data then
    { state with inspectionResults := inspectionResult.data }
  else state, tr ++ [WEvent.inspect])

/-- Steps 4 to 6 of the coordinated workflow: run the generated code,
check the console, debug once and retry once when errors are reported,
then inspect.  Every tool wrapper and the debugger agent catch their own
failures, so the surrounding catch handler of the source (which would
invoke the debugger a second time) is unreachable. -/
def executeAndDebug (env : WEnv) (state : AgentState) :
    AgentState × List WEvent :=
  let code0 := jsOrStr state.generatedCode ""
  let _runResult := toolsRunCode env 0 code0
  let tr := [WEvent.runCode code0]
  let consoleCheckResult := toolsCheckConsole env
  let tr := tr ++ [WEvent.checkConsole]
  if consoleCheckResult.success && !consoleCheckResult.errors.isEmpty then
    let state := debuggedState env state
    let tr := tr ++ [WEvent.debuggerCall]
    if truthyStr state.generatedCode then
      let code1 := state.generatedCode.getD ""
      let _retryResult := toolsRunCode env 1 code1
      inspectAndFinish env state (tr ++ [WEvent.runCode code1])
    else
      inspectAndFinish env state tr
  else
    inspectAndFinish env state tr

/-! ## Timeframe scoring and ranking (`scoreAndSortDatasetsByTime`)

The current year (`new Date().getFullYear().toString()`) is a parameter.
Scores are JS numbers that can be `NaN` (through `parseInt` on a
non-numeric year); `Option Int` models this, `none` being `NaN`, and the
score comparator maps a `NaN` difference to `+0` exactly as ECMAScript's
`CompareArrayElements` does. -/

structure Timeframe where
  start : Option String := none
  /-- the `end` field of the source (`end` is reserved in Lean) -/
  stop : Option String := none
deriving DecidableEq

structure TimedDataset where
  name : String := ""
  startDate : Option String := none
  start_date : Option String := none
  endDate : Option String := none
  end_date : Option String := none
  timeScore : Option Int := none
deriving DecidableEq

/-- JS `parseInt` in base 10: `none` is `NaN`. -/
def jsParseInt (s : String) : Option Int :=
  let l := s.data.dropWhile jsIsSpace
  let signAndRest : Int × List Char :=
    match l with
    | '-' :: t => (-1, t)
    | '+' :: t => (1, t)
    | _ => (1, l)
  let digits := signAndRest.2.takeWhile (fun c => '0' ≤ c && c ≤ '9')
  if digits.isEmpty then none
  else some (signAndRest.1 *
    (digits.foldl (fun acc c => acc * 10 + ((c.toNat - 48 : Nat) : Int)) 0))

def optAdd : Option Int → Option Int → Option Int
  | some a, some b => some (a + b)
  | _, _ => none

def optSub : Option Int → Option Int → Option Int
  | some a, some b => some (a - b)
  | _, _ => none

def optMulC (x : Option Int) (c : Int) : Option Int :=
  match x with
  | some a => some (a * c)
  | none => none

/-- JS `Math.min(x, c)` with `NaN` propagation. -/
def optMinC (x : Option Int) (c : Int) : Option Int :=
  match x with
  | some a => some (min a c)
  | none => none

/-- JS `Math.max(0, x)` with `NaN` propagation. -/
def optMax0 (x : Option Int) : Option Int :=
  match x with
  | some a => some (max 0 a)
  | none => none

def take4 (s : String) : String := ⟨s.data.take 4⟩

/-- The scoring step of `scoreAndSortDatasetsByTime` for one dataset,
producing `{...dataset, timeScore}`. -/
def scoreDatasetByTime (currentYear : String) (tf : Timeframe)
    (ds : TimedDataset) : TimedDataset :=
  let startDate := jsOrStr ds.startDate (jsOrStr ds.start_date "")
  let endDate := jsOrStr ds.endDate (jsOrStr ds.end_date "")
  let datasetStartYear := if startDate.isEmpty then "" else take4 startDate
  let datasetEndYear :=
    if !endDate.isEmpty && !jsIncludes endDate "present" &&
        !jsIncludes endDate "now" then
      take4 endDate
    else currentYear
  let requestStartYear :=
    match tf.start with
    | some s => if s.isEmpty then "" else take4 s
    | none => ""
  let requestEndYear :=
    match tf.stop with
    | some s => if s.isEmpty then currentYear else take4 s
    | none => currentYear
  -- `endDate === 'present' || endDate.includes('now')`
  let ongoing := endDate == "present" || jsIncludes endDate "now"
  let score : Option Int :=
    if !requestStartYear.isEmpty && !requestEndYear.isEmpty then
      -- full timeframe specified
      if !datasetStartYear.isEmpty && !datasetEndYear.isEmpty then
        if (jsLe datasetStartYear requestEndYear &&
            jsLe requestStartYear datasetEndYear) || ongoing then
          some (100 +
            (if jsLe datasetStartYear requestStartYear &&
                (jsLe requestEndYear datasetEndYear || ongoing) then 50 else 0) +
            (if ongoing then 20 else 0))
        else some 0
      else some 0
    else if !requestStartYear.isEmpty then
      -- only a start year specified
      if !datasetStartYear.isEmpty && jsLe datasetStartYear requestStartYear &&
          (jsLe requestStartYear datasetEndYear || ongoing) then
        some (100 + (if ongoing then 30 else 0))
      else some 0
    else
      -- no specific timeframe: prefer recent and ongoing datasets
      if ongoing then
        optAdd (some 100)
          (if !datasetStartYear.isEmpty then
            optMinC (optSub (jsParseInt currentYear) (jsParseInt datasetStartYear)) 30
          else some 0)
      else if !datasetEndYear.isEmpty then
        optMax0 (optSub (some 100)
          (optMulC (optSub (jsParseInt currentYear) (jsParseInt datasetEndYear)) 10))
      else some 0
  { ds with timeScore := score }

/-- The comparator `(a, b) => b.timeScore - a.timeScore`; a `NaN`
difference compares as `+0`. -/
def cmpTimeScore (a b : TimedDataset) : Int :=
  match a.timeScore, b.timeScore with
  | some sa, some sb => sb - sa
  | _, _ => 0

/-- The comparator of the no-timeframe branch (end-date recency with a
special case for ongoing datasets). -/
def noTimeframeCompare (a b : TimedDataset) : Int :=
  let aEndDate := jsOrStr a.endDate (jsOrStr a.end_date "")
  let bEndDate := jsOrStr b.endDate (jsOrStr b.end_date "")
  if aEndDate == "present" || jsIncludes aEndDate "now" then -1
  else if bEndDate == "present" || jsIncludes bEndDate "now" then 1
  else if jsLt bEndDate aEndDate then -1
  else if jsLt aEndDate bEndDate then 1
  else 0

/-- The function `scoreAndSortDatasetsByTime`. -/
def scoreAndSortDatasetsByTime (currentYear : String)
    (datasets : List TimedDataset) (timeframe : Option Timeframe) :
    List TimedDataset :=
  match timeframe with
  | none => jsSortBy noTimeframeCompare datasets
  | some tf =>
    jsSortBy cmpTimeScore (datasets.map (scoreDatasetByTime currentYear tf))

/-! ## Distinguished event predicates and verdict classification -/

def isRunEv : WEvent → Bool
  | WEvent.runCode _ => true
  | _ => false

def isDebugEv : WEvent → Bool
  | WEvent.debuggerCall => true
  | _ => false

inductive Verdict where
  | feasible
  | feasibleHedged
  | infeasible
deriving DecidableEq

/-- Modelled from the claim's decision table for the Feasibility Assessor:
a negative-keyword match is infeasible; otherwise a positive-keyword match
or at least two matching documentation snippets is feasible; otherwise the
verdict is feasible with the hedged explanation. -/
def specDecisionTable (query : String) : Verdict :=
  if hasNegativeKeyword query then Verdict.infeasible
  else if hasPositiveKeyword query || (searchDocumentation query 5).length ≥ 2 then
    Verdict.feasible
  else Verdict.feasibleHedged

/-- Classify an assessment result as one of the three table verdicts (the
hedged case is recognisable by its explanation text). -/
def verdictOf (r : ProblemAssessmentResult) : Verdict :=
  if r.feasible = false then Verdict.infeasible
  else if r.explanation = hedgedExplanation then Verdict.feasibleHedged
  else Verdict.feasible

/-- Predicate stating that no three consecutive backticks occur (the premise for a text that is
outside every fence). -/
def noBt3 : List Char → Bool
  | [] => true
  | c :: t => !isBt3 (c :: t) && noBt3 t

/-! ## Concrete environments and inputs used by the claim instances -/

/-- A minimal-pipeline environment: empty remote catalog, every chat call
answering `"."`. -/
def envDot : MEnv :=
  { fetchResult := .ok [], planReply := .ok ".", selectReply := .ok ".",
    codeReply := .ok ".", summaryReply := .ok "." }

/-- Workflow environment in which the console check rejects (so the
wrapper reports `success = false` together with one error diagnostic). -/
def envC2cex : WEnv :=
  { apiKey := some "key",
    runCodeResult := fun _ => .ok (some { success := true, message := some "ok" }),
    checkConsoleResult := .error "Could not communicate with Earth Engine. Make sure you are on the Earth Engine Code Editor page.",
    inspectMapResult := .ok none,
    debuggerReply := .ok "fixed" }

/-- Workflow environment in which the console check succeeds and reports
one error-level diagnostic, and the debugger returns a fenced repair. -/
def envC2w : WEnv :=
  { apiKey := some "key",
    runCodeResult := fun _ => .ok (some { success := true, message := some "ok" }),
    checkConsoleResult := .ok (some
      { success := true,
        errors := some [{ level := "error", message := "Line 1: bad band name" }] }),
    inspectMapResult := .ok none,
    debuggerReply := .ok "\x60\x60\x60js\nvar fixed = 2;\n\x60\x60\x60" }

def stateC2 : AgentState :=
  { input := "show elevation map", generatedCode := some "var x = 1;" }

/-- Two "ongoing" datasets for the no-timeframe comparator. -/
def ongoingA : TimedDataset := { name := "A", endDate := some "present" }

def ongoingB : TimedDataset := { name := "B", endDate := some "now" }

def tfC7 : Timeframe := { start := some "2020-01-01", stop := some "2021-12-31" }

def datasetsC7 : List TimedDataset := [
  { name := "A", start_date := some "1999-01-01", end_date := some "present" },
  { name := "B", start_date := some "2000", end_date := some "2010" },
  { name := "C", start_date := some "1980", end_date := some "2005" },
  { name := "D", start_date := some "2020-06", end_date := some "2021-01" }]

/-! ## Lemmas about the stable sort -/
theorem mem_insertCmp {cmp : α → α → Int} {x z : α} :
    ∀ {l : List α}, z ∈ insertCmp cmp x l → z = x ∨ z ∈ l := by
  intro l h
  induction l with
  | nil => simpa [insertCmp] using h
  | cons y t ih =>
    by_cases hc : cmp y x ≤ 0
    · simp only [insertCmp, if_pos hc, List.mem_cons] at h
      rcases h with h | h
      · right; simp [h]
      · rcases ih h with h | h
        · left; exact h
        · right; simp [h]
    · simp only [insertCmp, if_neg hc, List.mem_cons] at h
      rcases h with h | h
      · left; exact h
      · right; simpa using h

theorem insertCmp_perm (cmp : α → α → Int) (x : α) :
    ∀ l : List α, List.Perm (insertCmp cmp x l) (x :: l) := by
  intro l
  induction l with
  | nil => simp [insertCmp]
  | cons y t ih =>
    by_cases hc : cmp y x ≤ 0
    · simp only [insertCmp, if_pos hc]
      exact (ih.cons y).trans (List.Perm.swap x y t)
    · simp [insertCmp, if_neg hc]

theorem foldl_insertCmp_perm (cmp : α → α → Int) :
    ∀ (l acc : List α),
      List.Perm (l.foldl (fun acc x => insertCmp cmp x acc) acc) (acc ++ l) := by
  intro l
  induction l with
  | nil => intro acc; simp
  | cons x t ih =>
    intro acc
    have h1 : (x :: t).foldl (fun acc x => insertCmp cmp x acc) acc =
        t.foldl (fun acc x => insertCmp cmp x acc) (insertCmp cmp x acc) := rfl
    rw [h1]
    exact ((ih _).trans (((insertCmp_perm cmp x acc).append_right t).trans
      List.perm_middle.symm))

theorem jsSortBy_perm (cmp : α → α → Int) (l : List α) :
    List.Perm (jsSortBy cmp l) l := by
  simpa using foldl_insertCmp_perm cmp l []

theorem mem_jsSortBy {cmp : α → α → Int} {l : List α} {x : α} :
    x ∈ jsSortBy cmp l ↔ x ∈ l :=
  (jsSortBy_perm cmp l).mem_iff


theorem insertCmp_sortedDescKey {key : α → Int} {x : α} :
    ∀ {l : List α}, SortedDescKey key l →
      SortedDescKey key (insertCmp (keyCmp key) x l) := by
  intro l hl
  induction l with
  | nil => simp [insertCmp, SortedDescKey]
  | cons y t ih =>
    rcases List.pairwise_cons.mp hl with ⟨hy, ht⟩
    by_cases hc : keyCmp key y x ≤ 0
    · have hxy : key x ≤ key y := by
        have := hc; unfold keyCmp at this; omega
      simp only [insertCmp, if_pos hc]
      refine List.pairwise_cons.mpr ⟨?_, ih ht⟩
      intro z hz
      rcases mem_insertCmp hz with h | h
      · simpa [h] using hxy
      · exact hy z h
    · have hyx : key y < key x := by
        unfold keyCmp at hc; omega
      rw [insertCmp, if_neg hc]
      refine List.pairwise_cons.mpr ⟨?_, hl⟩
      intro z hz
      rcases List.mem_cons.mp hz with h | h
      · subst h; omega
      · have := hy z h; omega

theorem jsSortBy_sortedDescKey (key : α → Int) (l : List α) :
    SortedDescKey key (jsSortBy (keyCmp key) l) := by
  suffices h : ∀ (rest acc : List α), SortedDescKey key acc →
      SortedDescKey key (rest.foldl (fun acc x => insertCmp (keyCmp key) x acc) acc) by
    exact h l [] (by simp [SortedDescKey])
  intro rest
  induction rest with
  | nil => intro acc h; simpa using h
  | cons x t ih =>
    intro acc h
    exact ih _ (insertCmp_sortedDescKey h)

theorem sortedDescKey_head_max {key : α → Int} {y : α} {t : List α}
    (h : SortedDescKey key (y :: t)) : ∀ z ∈ y :: t, key z ≤ key y := by
  intro z hz
  rcases List.mem_cons.mp hz with h' | h'
  · simp [h']
  · exact (List.pairwise_cons.mp h).1 z h'

/-- Stability of the insertion step, phrased through key-filtering: on a
descending-sorted accumulator, inserting `x` appends it after all the
elements with the same key. -/
theorem insertCmp_filter_key {key : α → Int} (s : Int) (x : α) :
    ∀ {l : List α}, SortedDescKey key l →
      (insertCmp (keyCmp key) x l).filter (fun z => key z == s) =
        l.filter (fun z => key z == s) ++ (if key x = s then [x] else []) := by
  intro l hl
  induction l with
  | nil => by_cases h : key x = s <;> simp [insertCmp, h]
  | cons y t ih =>
    rcases List.pairwise_cons.mp hl with ⟨hy, ht⟩
    by_cases hc : keyCmp key y x ≤ 0
    · simp only [insertCmp, if_pos hc]
      by_cases hys : key y = s
      · simp [List.filter_cons, hys, ih ht]
      · simp [List.filter_cons, hys, ih ht]
    · have hyx : key y < key x := by unfold keyCmp at hc; omega
      by_cases hxs : key x = s
      · have hnil : (y :: t).filter (fun z => key z == s) = [] := by
          apply List.filter_eq_nil_iff.mpr
          intro z hz
          have := sortedDescKey_head_max hl z hz
          simp only [beq_iff_eq]
          omega
        simp [insertCmp, if_neg hc, List.filter_cons, hxs, hnil]
      · simp [insertCmp, if_neg hc, List.filter_cons, hxs]

/-- Stability of the whole sort: for every key value, the elements carrying
that key appear in the output in their original relative order. -/
theorem jsSortBy_filter_key (key : α → Int) (s : Int) (l : List α) :
    (jsSortBy (keyCmp key) l).filter (fun z => key z == s) =
      l.filter (fun z => key z == s) := by
  suffices h : ∀ (rest acc : List α), SortedDescKey key acc →
      (rest.foldl (fun acc x => insertCmp (keyCmp key) x acc) acc).filter
          (fun z => key z == s) =
        acc.filter (fun z => key z == s) ++ rest.filter (fun z => key z == s) by
    simpa using h l [] (by simp [SortedDescKey])
  intro rest
  induction rest with
  | nil => intro acc h; simp
  | cons x t ih =>
    intro acc h
    have step := @insertCmp_filter_key _ key s x _ h
    calc ((x :: t).foldl (fun acc x => insertCmp (keyCmp key) x acc) acc).filter
            (fun z => key z == s)
        = (t.foldl (fun acc x => insertCmp (keyCmp key) x acc)
            (insertCmp (keyCmp key) x acc)).filter (fun z => key z == s) := rfl
      _ = (insertCmp (keyCmp key) x acc).filter (fun z => key z == s) ++
            t.filter (fun z => key z == s) := ih _ (insertCmp_sortedDescKey h)
      _ = acc.filter (fun z => key z == s) ++
            (x :: t).filter (fun z => key z == s) := by
          by_cases hxs : key x = s <;>
            simp [step, hxs, List.filter_cons]

/-- Comparator congruence for the insertion step. -/
theorem insertCmp_congr {cmp₁ cmp₂ : α → α → Int} {x : α} :
    ∀ {l : List α}, (∀ y ∈ l, cmp₁ y x = cmp₂ y x) →
      insertCmp cmp₁ x l = insertCmp cmp₂ x l := by
  intro l h
  induction l with
  | nil => rfl
  | cons y t ih =>
    have hy : cmp₁ y x = cmp₂ y x := h y (by simp)
    by_cases hc : cmp₁ y x ≤ 0
    · rw [insertCmp, insertCmp, if_pos hc, if_pos (hy ▸ hc),
        ih (fun z hz => h z (by simp [hz]))]
    · rw [insertCmp, insertCmp, if_neg hc, if_neg (hy ▸ hc)]

/-- Comparator congruence for the sort: only comparator values on elements
of the list matter. -/
theorem jsSortBy_congr {cmp₁ cmp₂ : α → α → Int} {l : List α}
    (h : ∀ a ∈ l, ∀ b ∈ l, cmp₁ a b = cmp₂ a b) :
    jsSortBy cmp₁ l = jsSortBy cmp₂ l := by
  suffices hgen : ∀ (rest acc : List α), (∀ x ∈ rest, x ∈ l) → (∀ x ∈ acc, x ∈ l) →
      rest.foldl (fun acc x => insertCmp cmp₁ x acc) acc =
        rest.foldl (fun acc x => insertCmp cmp₂ x acc) acc by
    exact hgen l [] (fun x hx => hx) (by simp)
  intro rest
  induction rest with
  | nil => intro acc _ _; rfl
  | cons x t ih =>
    intro acc hrest hacc
    have hx : x ∈ l := hrest x (by simp)
    have hins : insertCmp cmp₁ x acc = insertCmp cmp₂ x acc :=
      insertCmp_congr (fun y hy => h y (hacc y hy) x hx)
    have hsub : ∀ z ∈ insertCmp cmp₂ x acc, z ∈ l := by
      intro z hz
      rcases mem_insertCmp hz with h' | h'
      · exact h' ▸ hx
      · exact hacc z h'
    calc (x :: t).foldl (fun acc x => insertCmp cmp₁ x acc) acc
        = t.foldl (fun acc x => insertCmp cmp₁ x acc) (insertCmp cmp₂ x acc) := by
          rw [List.foldl_cons, hins]
      _ = t.foldl (fun acc x => insertCmp cmp₂ x acc) (insertCmp cmp₂ x acc) :=
          ih _ (fun z hz => hrest z (by simp [hz])) hsub

/-! ## Claim C1 -/

/-- Claim C1: for every oracle environment and every input string, the
pipeline's processing function returns a well-formed terminal response
(`Except.ok` of an `AgentResponse`): every stage failure is converted at
its stage boundary and no exception escapes the pipeline. -/
theorem c1_processing_never_rejects (env : MEnv) (input : String) :
    ∃ r : AgentResponse, (processingFunctionE env input).1 = Except.ok r := by
  unfold processingFunctionE
  repeat' first
  | exact ⟨_, rfl⟩
  | split
  | dsimp only

/-! ## Claim C9 -/

/-- Claim C9: the catalog search returns at most 20 entries, and every
returned entry's combined id/title/description/tags text contains at
least one query keyword longer than 2 characters (case-insensitively).
The keyword-containment guarantee holds on both fetch outcomes because
the fetch fallback happens before filtering. -/
theorem c9_search_bounded_relevant
    (fetchResult : Except String (List DatasetEntry)) (query : String) :
    (searchEarthEngineDatabase fetchResult query).length ≤ 20 ∧
    ∀ d ∈ searchEarthEngineDatabase fetchResult query,
      ∃ kw ∈ searchKeywords query, kw.length > 2 ∧
        jsIncludes (datasetText d) kw = true := by
  constructor
  · simp only [searchEarthEngineDatabase]
    exact List.length_take_le _ _
  · intro d hd
    simp only [searchEarthEngineDatabase] at hd
    have hd1 := List.take_subset _ _ hd
    rw [List.mem_map] at hd1
    obtain ⟨p, hp, hpd⟩ := hd1
    rw [mem_jsSortBy, List.mem_map] at hp
    obtain ⟨d', hd', hdd⟩ := hp
    have hde : d' = d := by
      rw [← hdd] at hpd
      simpa using hpd
    subst hde
    rw [List.mem_filter] at hd'
    obtain ⟨_, hprop⟩ := hd'
    rw [List.any_eq_true] at hprop
    obtain ⟨kw, hkw, hinc⟩ := hprop
    refine ⟨kw, hkw, ?_, hinc⟩
    unfold searchKeywords at hkw
    exact of_decide_eq_true (List.mem_filter.mp hkw).2

set_option maxRecDepth 10000 in
/-- Witness for C9 at a concrete fetch failure and query: the sample
catalog's SRTM entry is returned for `"elevation data"` and matches the
keyword guarantee. -/
theorem c9_search_bounded_relevant_witness :
    (searchEarthEngineDatabase (Except.error "network error") "elevation data").length ≤ 20 ∧
    ∃ kw ∈ searchKeywords "elevation data", kw.length > 2 ∧
      jsIncludes (datasetText sampleSRTM) kw = true :=
  ⟨(c9_search_bounded_relevant (Except.error "network error") "elevation data").1,
    (c9_search_bounded_relevant (Except.error "network error") "elevation data").2
      sampleSRTM (by decide)⟩

/-! ## Claim C10 -/

/-- Claim C10: the code-debugger agent is the identity on any state
lacking generated code or lacking error text, and on every state the
fields `input`, `taskPlan`, `selectedDatabases`, `databaseSelectionText`
and `inspectionResults` of the returned state equal those of the input
state — only `generatedCode`, `errors`, `debugLog` and `response` can
change. -/
theorem c10_debugger_frame (apiKey : Option String)
    (reply : Except String String) (s : AgentState) :
    ((truthyStr s.generatedCode && truthyStr s.errors) = false →
      codeDebuggerAgent apiKey reply s = s) ∧
    ((codeDebuggerAgent apiKey reply s).input = s.input ∧
      (codeDebuggerAgent apiKey reply s).taskPlan = s.taskPlan ∧
      (codeDebuggerAgent apiKey reply s).selectedDatabases = s.selectedDatabases ∧
      (codeDebuggerAgent apiKey reply s).databaseSelectionText = s.databaseSelectionText ∧
      (codeDebuggerAgent apiKey reply s).inspectionResults = s.inspectionResults) := by
  unfold codeDebuggerAgent
  by_cases h : (truthyStr s.generatedCode && truthyStr s.errors) = true
  · refine ⟨fun h' => absurd h (by simp [h']), ?_⟩
    simp only [h, Bool.not_true, Bool.false_eq_true, if_false]
    cases apiKey <;> cases reply <;> simp
  · have h' : (truthyStr s.generatedCode && truthyStr s.errors) = false :=
      Bool.eq_false_iff.mpr h
    exact ⟨fun _ => by simp [h'], by simp [h']⟩

/-- Witness for C10: at a state with no generated code, the debugger is
the identity. -/
theorem c10_debugger_frame_witness :
    codeDebuggerAgent (some "key") (Except.ok "fix") { input := "q" } =
      { input := "q" } :=
  (c10_debugger_frame (some "key") (Except.ok "fix") { input := "q" }).1 (by decide)

/-! ## Claim C5 -/

/-- Claim C5, amended: for the empty input string the entry point returns
the fixed invalid-query response without invoking any stage (empty trace);
whitespace-only non-empty input is NOT rejected (see the counterexample). -/
theorem c5_empty_input_rejected (env : MEnv) :
    submit env "" = (Except.ok invalidInputResponse, ([] : List MEvent)) := rfl

set_option maxRecDepth 40000 in
/-- Counterexample to C5 as stated: the whitespace-only input `" "` is not
rejected — the run invokes the feasibility-assessment stage (and the model
calls after it) and returns the pipeline's summary response rather than
the fixed invalid-query response. -/
theorem c5_counterexample :
    (submit envDot " ").2.head? = some MEvent.assess ∧
    (submit envDot " ").1 =
      Except.ok { response := ".", code := some ".",
                  debugLog := some ["Task completed successfully"] } ∧
    ({ response := ".", code := some ".",
       debugLog := some ["Task completed successfully"] } : AgentResponse) ≠
      invalidInputResponse :=
  ⟨by decide, by rfl, by decide⟩

/-! ## Claim C4 -/

/-- Claim C4, amended: for every non-empty input whose feasibility
assessment is negative, the pipeline terminates immediately after the
Feasibility Assessor — the response text is a fixed unsuitability preamble
followed by the assessor's explanation, the code field is the fixed
not-feasible placeholder, and no model call happens (the trace is exactly
the assessment event, so the Plan Generator is never invoked). -/
theorem c4_infeasible_terminates (env : MEnv) (input : String)
    (hne : input.isEmpty = false)
    (hinf : (assessProblem input).feasible = false) :
    processingFunctionE env input =
      (Except.ok { response := notFeasiblePrefix ++ (assessProblem input).explanation,
                   code := some "// Task not feasible with Earth Engine" },
       [MEvent.assess]) := by
  unfold processingFunctionE
  simp [hne, hinf]

set_option maxRecDepth 10000 in
/-- Witness for C4 at the negative-keyword input `"best pizza restaurant"`. -/
theorem c4_infeasible_terminates_witness :
    processingFunctionE envDot "best pizza restaurant" =
      (Except.ok { response := notFeasiblePrefix ++
                     (assessProblem "best pizza restaurant").explanation,
                   code := some "// Task not feasible with Earth Engine" },
       [MEvent.assess]) :=
  c4_infeasible_terminates envDot "best pizza restaurant" (by rfl) (by decide)

set_option maxRecDepth 10000 in
/-- Counterexample to C4 as stated: on a negative-keyword input the
response text is not the assessor's explanation — it is a fixed preamble
concatenated with the explanation. -/
theorem c4_counterexample :
    (processingFunctionE envDot "best pizza restaurant").1 =
      Except.ok { response := notFeasiblePrefix ++ infeasibleExplanation,
                  code := some "// Task not feasible with Earth Engine" } ∧
    (assessProblem "best pizza restaurant").explanation = infeasibleExplanation ∧
    notFeasiblePrefix ++ infeasibleExplanation ≠ infeasibleExplanation :=
  ⟨by rfl, by decide, by decide⟩

/-! ## Claim C2 -/

/-- Claim C2, amended: in every run whose console check succeeds
(`success = true`) and reports a non-empty diagnostics list, the Debugger
agent is invoked exactly once, and `runCode` is invoked a second time
exactly when the state returned by the debugger still carries non-empty
code (the second invocation uses the repaired code); there is never a
further repair attempt.  When the console check reports diagnostics with
`success = false` (its own failure path), no repair happens at all — see
the counterexample. -/
theorem c2_single_repair_attempt (env : WEnv) (st : AgentState)
    (hs : (toolsCheckConsole env).success = true)
    (he : (toolsCheckConsole env).errors ≠ []) :
    (executeAndDebug env st).2 =
      [WEvent.runCode (jsOrStr st.generatedCode ""), WEvent.checkConsole,
        WEvent.debuggerCall] ++
      (if truthyStr (debuggedState env st).generatedCode then
        [WEvent.runCode ((debuggedState env st).generatedCode.getD "")]
      else []) ++ [WEvent.inspect] ∧
    (executeAndDebug env st).2.countP isDebugEv = 1 := by
  have hcond : ((toolsCheckConsole env).success &&
      !(toolsCheckConsole env).errors.isEmpty) = true := by
    simp [hs, List.isEmpty_iff, he]
  by_cases hg : truthyStr (debuggedState env st).generatedCode = true <;>
    simp [executeAndDebug, inspectAndFinish, hcond, hg, isDebugEv,
      List.countP_cons, List.countP_append]

/-- Witness for C2 at a concrete successful console check with one
error-level diagnostic: the debugger runs once and the repaired code is
re-run, for two `runCode` invocations in total. -/
theorem c2_single_repair_attempt_witness :
    (executeAndDebug envC2w stateC2).2 =
      [WEvent.runCode (jsOrStr stateC2.generatedCode ""), WEvent.checkConsole,
        WEvent.debuggerCall] ++
      (if truthyStr (debuggedState envC2w stateC2).generatedCode then
        [WEvent.runCode ((debuggedState envC2w stateC2).generatedCode.getD "")]
      else []) ++ [WEvent.inspect] ∧
    (executeAndDebug envC2w stateC2).2.countP isDebugEv = 1 :=
  c2_single_repair_attempt envC2w stateC2 (by rfl) (by decide)

/-- Counterexample to C2 as stated: when the console check itself fails
(bridge rejection), the returned diagnostics list is non-empty (one
error-level entry) — satisfying the claim's premise — yet the Debugger is
never invoked and `runCode` runs only once. -/
theorem c2_counterexample :
    (toolsCheckConsole envC2cex).errors.map (fun d => d.level) = ["error"] ∧
    (executeAndDebug envC2cex stateC2).2.countP isDebugEv = 0 ∧
    (executeAndDebug envC2cex stateC2).2.countP isRunEv = 1 := by
  refine ⟨by rfl, by decide, by decide⟩

/-! ## Claim C6 -/

/-- Claim C6, amended: when the dataset-selection stage produces an empty
set of selected datasets, the pipeline does NOT terminate with a
"could not find datasets" response — the emptiness guard only rejects a
missing selection list, an empty one passes it, and the code-generation
model call is always reached (trace evidence: every trace containing the
`selected 0` entry also contains the code-generation chat entry). -/
theorem c6_empty_selection_continues (env : MEnv) (input : String)
    (h : MEvent.selected 0 ∈ (processingFunctionE env input).2) :
    MEvent.chatCode ∈ (processingFunctionE env input).2 := by
  revert h
  unfold processingFunctionE
  repeat' first
  | split
  | dsimp only
  all_goals intro h
  all_goals simp_all [List.mem_append, List.mem_map]

set_option maxRecDepth 40000 in
/-- Witness for C6: a concrete run (empty remote catalog, so zero
datasets are selected) in which the code-generation call happens. -/
theorem c6_empty_selection_continues_witness :
    MEvent.chatCode ∈ (processingFunctionE envDot "map").2 :=
  c6_empty_selection_continues envDot "map" (by decide)

set_option maxRecDepth 40000 in
/-- Counterexample to C6 as stated: a run that selects zero datasets
(empty catalog), yet proceeds to the code-generation stage and terminates
with the summary response — there is no "could not find datasets"
termination in this pipeline. -/
theorem c6_counterexample :
    MEvent.selected 0 ∈ (processingFunctionE envDot "map").2 ∧
    MEvent.chatCode ∈ (processingFunctionE envDot "map").2 ∧
    (processingFunctionE envDot "map").1 =
      Except.ok { response := ".", code := some ".",
                  debugLog := some ["Task completed successfully"] } :=
  ⟨by decide, by decide, by rfl⟩

/-! ## Claim C3 -/

/-- Claim C3, amended: for every non-empty query, the feasibility verdict
follows the claimed decision table — negative keyword → infeasible;
otherwise positive keyword or at least 2 matching documentation snippets
→ feasible; otherwise feasible with the hedged explanation.  (For the
empty query the code's early guard returns infeasible instead — see the
counterexample.) -/
theorem c3_decision_table (query : String) (hq : query.isEmpty = false) :
    verdictOf (assessProblem query) = specDecisionTable query := by
  have hFH : ¬(feasibleExplanation = hedgedExplanation) := by decide
  unfold assessProblem specDecisionTable verdictOf
  by_cases hneg : hasNegativeKeyword query = true <;>
    by_cases hpos : hasPositiveKeyword query = true <;>
    by_cases hdoc : 2 ≤ (searchDocumentation query 5).length <;>
    simp [hq, hFH, hneg, hpos, hdoc]

/-- Witness for C3 at the non-empty query `"elevation"`. -/
theorem c3_decision_table_witness :
    verdictOf (assessProblem "elevation") = specDecisionTable "elevation" :=
  c3_decision_table "elevation" (by rfl)

set_option maxRecDepth 10000 in
/-- Counterexample to C3 as stated: for the empty query the early guard of
`assessProblem` returns an infeasible verdict, while the claimed decision
table (no negative keyword; the empty query trivially matches all
documentation snippets) yields a feasible one. -/
theorem c3_counterexample :
    verdictOf (assessProblem "") = Verdict.infeasible ∧
    specDecisionTable "" = Verdict.feasible :=
  ⟨by decide, by decide⟩

/-! ## Claim C8: lemmas about fence splitting -/

theorem noBt3_fenceSplitL : ∀ l : List Char, noBt3 l = true → fenceSplitL l = none := by
  intro l h
  induction l with
  | nil => rfl
  | cons c t ih =>
    rw [noBt3, Bool.and_eq_true, Bool.not_eq_true'] at h
    simp [fenceSplitL, h.1, ih h.2]

theorem noBt3_tail {c : Char} {t : List Char} (h : noBt3 (c :: t) = true) :
    noBt3 t = true := by
  rw [noBt3, Bool.and_eq_true] at h
  exact h.2

theorem isBt3_cons_cons_cons (c d e : Char) (t s : List Char) :
    isBt3 (c :: d :: e :: t) = isBt3 (c :: d :: e :: s) := rfl

theorem fenceSplitL_append :
    ∀ (a b : List Char), noBt3 a = true → a.getLast? ≠ some btChar →
      fenceSplitL (a ++ btChar :: btChar :: btChar :: b) = some (a, b) := by
  intro a
  induction a with
  | nil =>
    intro b _ _
    simp [fenceSplitL, isBt3]
  | cons c t ih =>
    intro b ha ha2
    have hbt : isBt3 (c :: t ++ btChar :: btChar :: btChar :: b) = false := by
      match t with
      | [] =>
        have hc : c ≠ btChar := by
          intro hc; exact ha2 (by simp [hc])
        simp [isBt3, hc]
      | [d] =>
        have hd : d ≠ btChar := by
          intro hd; exact ha2 (by simp [hd])
        simp [isBt3, hd]
      | d :: e :: t' =>
        have : isBt3 (c :: d :: e :: (t' ++ btChar :: btChar :: btChar :: b)) =
            isBt3 (c :: d :: e :: t') := isBt3_cons_cons_cons _ _ _ _ _
        rw [List.cons_append, List.cons_append, List.cons_append] at *
        rw [this]
        rw [noBt3, Bool.and_eq_true, Bool.not_eq_true'] at ha
        exact ha.1
    have ht : noBt3 t = true := noBt3_tail ha
    have ht2 : t.getLast? ≠ some btChar := by
      match t with
      | [] => simp
      | d :: t' =>
        intro hcontra
        exact ha2 (by rw [List.getLast?_cons_cons]; exact hcontra)
    rw [List.cons_append, fenceSplitL]
    rw [List.cons_append] at hbt
    simp [hbt, ih b ht ht2]

theorem noBt3_dropWhile (p : Char → Bool) :
    ∀ l : List Char, noBt3 l = true → noBt3 (l.dropWhile p) = true := by
  intro l h
  induction l with
  | nil => exact h
  | cons c t ih =>
    rw [List.dropWhile_cons]
    by_cases hc : p c = true
    · simp only [hc, if_true]
      exact ih (noBt3_tail h)
    · simp only [hc]
      simpa using h

theorem getLast?_dropWhile (p : Char → Bool) :
    ∀ l : List Char, l.dropWhile p ≠ [] →
      (l.dropWhile p).getLast? = l.getLast? := by
  intro l h
  induction l with
  | nil => simp at h
  | cons c t ih =>
    rw [List.dropWhile_cons] at h ⊢
    by_cases hc : p c = true
    · simp only [hc, if_true] at h ⊢
      have ht : t ≠ [] := by
        intro ht; rw [ht] at h; simp at h
      match t, ht with
      | d :: t', _ =>
        rw [List.getLast?_cons_cons]
        exact ih h
    · simp only [hc, if_false]
      rfl

theorem dropWhile_append_nonspace (c : Char) (hc : jsIsSpace c = false) :
    ∀ (x b : List Char),
      (x ++ c :: b).dropWhile jsIsSpace = x.dropWhile jsIsSpace ++ c :: b := by
  intro x b
  induction x with
  | nil => simp [List.dropWhile_cons, hc]
  | cons d t ih =>
    rw [List.cons_append, List.dropWhile_cons, List.dropWhile_cons]
    by_cases hd : jsIsSpace d = true
    · simp [hd, ih]
    · simp [hd]

theorem dropWhile_dropWhile (p : Char → Bool) :
    ∀ l : List Char, (l.dropWhile p).dropWhile p = l.dropWhile p := by
  intro l
  induction l with
  | nil => rfl
  | cons c t ih =>
    rw [List.dropWhile_cons]
    by_cases hc : p c = true
    · simp [hc, ih]
    · simp [List.dropWhile_cons, hc]

theorem jsTrimL_dropWhile (l : List Char) :
    jsTrimL (l.dropWhile jsIsSpace) = jsTrimL l := by
  unfold jsTrimL
  rw [dropWhile_dropWhile]

theorem fenceTail_eq (inner post : List Char) (h1 : noBt3 inner = true)
    (h2 : inner.getLast? ≠ some btChar) :
    fenceSplitL (('\n' :: (inner ++ btChar :: btChar :: btChar :: post)).dropWhile
      jsIsSpace) = some (inner.dropWhile jsIsSpace, post) := by
  have ha2 : (inner.dropWhile jsIsSpace).getLast? ≠ some btChar := by
    cases hemp : inner.dropWhile jsIsSpace with
    | nil => simp
    | cons x xs =>
      rw [← hemp, getLast?_dropWhile jsIsSpace inner (by rw [hemp]; simp)]
      exact h2
  rw [List.dropWhile_cons, if_pos (by decide : jsIsSpace '\n' = true),
    dropWhile_append_nonspace btChar (by decide) inner (btChar :: btChar :: post),
    fenceSplitL_append _ _ (noBt3_dropWhile jsIsSpace inner h1) ha2]

/-- Claim C8, amended: for a reply containing exactly one fenced code
block whose language tag is empty, `js` or `javascript`, extraction
returns the block's inner text trimmed of leading and trailing whitespace
(in particular with no leading or trailing blank lines) and nothing else
from the surrounding reply.  For any other language tag the regex's
`(?:javascript|js)?` alternation can capture part of the tag itself —
see the counterexample with a `json` tag. -/
theorem c8_extract_code_block (pre lang inner post : String)
    (hlang : lang = "" ∨ lang = "js" ∨ lang = "javascript")
    (hpre : noBt3 pre.data = true) (hpre2 : pre.data.getLast? ≠ some btChar)
    (hinner : noBt3 inner.data = true)
    (hinner2 : inner.data.getLast? ≠ some btChar)
    (_hpost : noBt3 post.data = true) :
    extractCodeBlock
        (pre ++ "\x60\x60\x60" ++ lang ++ "\n" ++ inner ++ "\x60\x60\x60" ++ post) =
      jsTrim inner := by
  have hbt3 : ("\x60\x60\x60" : String).data = [btChar, btChar, btChar] := rfl
  have hnl : ("\n" : String).data = ['\n'] := rfl
  have hjd : ("javascript" : String).data =
      ['j', 'a', 'v', 'a', 's', 'c', 'r', 'i', 'p', 't'] := rfl
  have hsd : ("js" : String).data = ['j', 's'] := rfl
  have hed : ("" : String).data = [] := rfl
  have hdata : (pre ++ "\x60\x60\x60" ++ lang ++ "\n" ++ inner ++ "\x60\x60\x60" ++
      post).data =
      pre.data ++ btChar :: btChar :: btChar ::
        (lang.data ++ '\n' :: (inner.data ++ btChar :: btChar :: btChar ::
          post.data)) := by
    simp [String.data_append, hbt3, hnl]
    decide
  unfold extractCodeBlock matchCodeFence
  rw [hdata, fenceSplitL_append _ _ hpre hpre2]
  dsimp only
  rcases hlang with h | h | h <;> subst h
  · have hstrip : stripLangTag (("" : String).data ++ '\n' ::
        (inner.data ++ btChar :: btChar :: btChar :: post.data)) =
        '\n' :: (inner.data ++ btChar :: btChar :: btChar :: post.data) := by
      simp [stripLangTag, hjd, hsd, hed, List.isPrefixOf]
    rw [hstrip, fenceTail_eq _ _ hinner hinner2]
    dsimp only
    show jsTrim ⟨inner.data.dropWhile jsIsSpace⟩ = jsTrim inner
    unfold jsTrim
    rw [jsTrimL_dropWhile]
  · have hstrip : stripLangTag (("js" : String).data ++ '\n' ::
        (inner.data ++ btChar :: btChar :: btChar :: post.data)) =
        '\n' :: (inner.data ++ btChar :: btChar :: btChar :: post.data) := by
      simp [stripLangTag, hjd, hsd, List.isPrefixOf]
    rw [hstrip, fenceTail_eq _ _ hinner hinner2]
    dsimp only
    show jsTrim ⟨inner.data.dropWhile jsIsSpace⟩ = jsTrim inner
    unfold jsTrim
    rw [jsTrimL_dropWhile]
  · have hstrip : stripLangTag (("javascript" : String).data ++ '\n' ::
        (inner.data ++ btChar :: btChar :: btChar :: post.data)) =
        '\n' :: (inner.data ++ btChar :: btChar :: btChar :: post.data) := by
      simp [stripLangTag, hjd, hsd, List.isPrefixOf]
    rw [hstrip, fenceTail_eq _ _ hinner hinner2]
    dsimp only
    show jsTrim ⟨inner.data.dropWhile jsIsSpace⟩ = jsTrim inner
    unfold jsTrim
    rw [jsTrimL_dropWhile]

/-- Witness for C8: a reply with one `js`-tagged fenced block around
`var x = 1;`. -/
theorem c8_extract_code_block_witness :
    extractCodeBlock ("Here is the code:\n" ++ "\x60\x60\x60" ++ "js" ++ "\n" ++
        "var x = 1;" ++ "\x60\x60\x60" ++ "\nHope that helps.") =
      jsTrim "var x = 1;" :=
  c8_extract_code_block "Here is the code:\n" "js" "var x = 1;"
    "\nHope that helps." (Or.inr (Or.inl rfl)) (by decide) (by decide)
    (by decide) (by decide) (by decide)

/-- Counterexample to C8 as stated: a reply whose single fenced block is
tagged `json` — the alternation `(?:javascript|js)?` consumes the `js` of
`json`, so extraction returns `on` plus the block body instead of the
block's inner text `[1, 2]`. -/
theorem c8_counterexample :
    extractCodeBlock "\x60\x60\x60json\n[1, 2]\n\x60\x60\x60" = "on\n[1, 2]" ∧
    ("on\n[1, 2]" : String) ≠ "[1, 2]" :=
  ⟨by rfl, by decide⟩

/-! ## Claim C7 -/

theorem take4_isEmpty_eq_false {s : String} (h : s.isEmpty = false) :
    (take4 s).isEmpty = false := by
  rw [Bool.eq_false_iff] at h ⊢
  intro hcontra
  apply h
  rw [String.isEmpty_iff] at hcontra ⊢
  cases hd : s.data with
  | nil =>
    apply String.ext
    rw [hd]
  | cons c t =>
    exfalso
    have hdat := congrArg String.data hcontra
    unfold take4 at hdat
    rw [hd] at hdat
    simp at hdat

/-- With a truthy `timeframe.start`, scoring never reaches the
`parseInt` arms, so no score is `NaN`. -/
theorem scoreDatasetByTime_isSome (currentYear : String) (tf : Timeframe)
    (hstart : truthyStr tf.start = true) (ds : TimedDataset) :
    (scoreDatasetByTime currentYear tf ds).timeScore.isSome = true := by
  obtain ⟨s, hs⟩ : ∃ s, tf.start = some s := by
    cases h : tf.start with
    | none => rw [h] at hstart; simp [truthyStr] at hstart
    | some s => exact ⟨s, rfl⟩
  have hse : s.isEmpty = false := by
    rw [hs] at hstart
    simpa [truthyStr] using hstart
  have hne : (take4 s).isEmpty = false := take4_isEmpty_eq_false hse
  unfold scoreDatasetByTime
  rw [hs]
  simp only [hse, Bool.false_eq_true, if_false]
  split_ifs <;> simp_all [hne]

theorem cmpTimeScore_eq_keyCmp {a b : TimedDataset}
    (ha : a.timeScore.isSome = true) (hb : b.timeScore.isSome = true) :
    cmpTimeScore a b = keyCmp (fun d => d.timeScore.getD 0) a b := by
  obtain ⟨x, hx⟩ := Option.isSome_iff_exists.mp ha
  obtain ⟨y, hy⟩ := Option.isSome_iff_exists.mp hb
  simp [cmpTimeScore, keyCmp, hx, hy]

/-- Claim C7, amended: when a timeframe with a truthy start date is
supplied, the ranking is a deterministic stable total order — the output
is a permutation of the scored candidates, sorted descending by
`timeScore` (computed against the given current year), with ties kept in
the candidates' original order (for every score value, the elements
carrying it appear in their original relative order).  With no timeframe
(or an empty start), the sort comparator is inconsistent or compares
`NaN` scores as equal, so ECMAScript leaves the resulting order
implementation-defined — see the counterexample. -/
theorem c7_timeframe_sort_stable (currentYear : String)
    (datasets : List TimedDataset) (tf : Timeframe)
    (hstart : truthyStr tf.start = true) :
    List.Perm (scoreAndSortDatasetsByTime currentYear datasets (some tf))
      (datasets.map (scoreDatasetByTime currentYear tf)) ∧
    SortedDescKey (fun d => d.timeScore.getD 0)
      (scoreAndSortDatasetsByTime currentYear datasets (some tf)) ∧
    ∀ s : Int,
      (scoreAndSortDatasetsByTime currentYear datasets (some tf)).filter
          (fun d => d.timeScore == some s) =
        (datasets.map (scoreDatasetByTime currentYear tf)).filter
          (fun d => d.timeScore == some s) := by
  have hall : ∀ d ∈ datasets.map (scoreDatasetByTime currentYear tf),
      d.timeScore.isSome = true := by
    intro d hd
    rw [List.mem_map] at hd
    obtain ⟨d0, _, hd0⟩ := hd
    rw [← hd0]
    exact scoreDatasetByTime_isSome currentYear tf hstart d0
  have hcongr : jsSortBy cmpTimeScore
        (datasets.map (scoreDatasetByTime currentYear tf)) =
      jsSortBy (keyCmp (fun d => d.timeScore.getD 0))
        (datasets.map (scoreDatasetByTime currentYear tf)) :=
    jsSortBy_congr (fun a hA b hB =>
      cmpTimeScore_eq_keyCmp (hall a hA) (hall b hB))
  have hmain : scoreAndSortDatasetsByTime currentYear datasets (some tf) =
      jsSortBy cmpTimeScore (datasets.map (scoreDatasetByTime currentYear tf)) :=
    rfl
  have hiff : ∀ (l : List TimedDataset) (s : Int),
      (∀ d ∈ l, d.timeScore.isSome = true) →
      l.filter (fun d => d.timeScore == some s) =
        l.filter (fun d => d.timeScore.getD 0 == s) := by
    intro l s hl
    apply List.filter_congr
    intro d hd
    obtain ⟨x, hx⟩ := Option.isSome_iff_exists.mp (hl d hd)
    simp [hx]
  refine ⟨?_, ?_, ?_⟩
  · rw [hmain]
    exact jsSortBy_perm _ _
  · rw [hmain, hcongr]
    exact jsSortBy_sortedDescKey _ _
  · intro s
    rw [hmain, hcongr]
    calc (jsSortBy (keyCmp (fun d => d.timeScore.getD 0))
            (datasets.map (scoreDatasetByTime currentYear tf))).filter
          (fun d => d.timeScore == some s)
        = (jsSortBy (keyCmp (fun d => d.timeScore.getD 0))
            (datasets.map (scoreDatasetByTime currentYear tf))).filter
          (fun d => d.timeScore.getD 0 == s) :=
          hiff _ s (fun d hd => hall d (mem_jsSortBy.mp hd))
      _ = (datasets.map (scoreDatasetByTime currentYear tf)).filter
          (fun d => d.timeScore.getD 0 == s) :=
          jsSortBy_filter_key (fun d : TimedDataset => d.timeScore.getD 0) s _
      _ = (datasets.map (scoreDatasetByTime currentYear tf)).filter
          (fun d => d.timeScore == some s) := (hiff _ s hall).symm

/-- Witness for C7 at a concrete timeframe and candidate list (the tie
between the two zero-score candidates keeps their original order). -/
theorem c7_timeframe_sort_stable_witness :
    List.Perm (scoreAndSortDatasetsByTime "2024" datasetsC7 (some tfC7))
      (datasetsC7.map (scoreDatasetByTime "2024" tfC7)) ∧
    SortedDescKey (fun d => d.timeScore.getD 0)
      (scoreAndSortDatasetsByTime "2024" datasetsC7 (some tfC7)) ∧
    (scoreAndSortDatasetsByTime "2024" datasetsC7 (some tfC7)).filter
        (fun d => d.timeScore == some 0) =
      (datasetsC7.map (scoreDatasetByTime "2024" tfC7)).filter
        (fun d => d.timeScore == some 0) :=
  ⟨(c7_timeframe_sort_stable "2024" datasetsC7 tfC7 (by decide)).1,
    (c7_timeframe_sort_stable "2024" datasetsC7 tfC7 (by decide)).2.1,
    (c7_timeframe_sort_stable "2024" datasetsC7 tfC7 (by decide)).2.2 0⟩

/-- Counterexample to C7 as stated: in the no-timeframe branch the sort
comparator says that each of two ongoing datasets comes strictly before
the other, so it induces no total order at all — "ties broken by catalog
order" fails, and ECMAScript makes the resulting sort order
implementation-defined for such an inconsistent comparator. -/
theorem c7_counterexample :
    noTimeframeCompare ongoingA ongoingB = -1 ∧
    noTimeframeCompare ongoingB ongoingA = -1 := by
  refine ⟨by decide, by decide⟩
